import Mathlib

/-!
Verification of the surface-anchored annotation subsystem of the
3D-Annotator repository.

The repository is a React-three-fiber application.  The claims concern the
pure state transitions performed by its event handlers and per-frame
callback, so we shallow-embed those handlers as Lean functions over
explicit state records:

* `handlePivotDrag` — anchor-drag handler of `src/unnamed/part_001`
  (lines 97–116): raycasts against the bound model and, on a hit, moves
  both the pivot mesh and the stored anchor to
  `point + 0.05 · normal`.
* `handleDrag` — the variant in `src/portfolio/src/App.tsx`
  (lines 82–95): on a hit it moves the pivot mesh to
  `point + 0.01 · normal` but stores the raw intersection `point` in the
  anchor array.
* `annotFrame` — the `useFrame` body of the `Annotation` component
  (part_001 lines 140–160): copies the world positions of the pivot and
  the content panel into the connector line's two endpoints, guarded on
  all three refs being mounted.
* `handleModelClick`, `handleTextSelection`, `handleImageUpload`,
  `cancelSelection`, `handleDelete`, `handleTypeChange` — the App-level
  session/store handlers of part_001 (lines 315–374 and the Cancel
  button's onClick at line 459).

Scene coordinates are JavaScript numbers; the claims under verification
are structural (which value is stored where), so coordinates are embedded
as rationals.  The three.js raycaster is external to the repository: each
drag handler is parameterised by the intersection list the raycaster
returns, which three.js sorts by ascending distance; that sortedness is
taken as a hypothesis where a claim speaks of the nearest intersection.
-/

/-- World-space coordinates, as produced by THREE.Vector3. -/
structure Vec3 where
  x : ℚ
  y : ℚ
  z : ℚ
deriving DecidableEq, Repr

/-- Componentwise vector addition (THREE.Vector3.add). -/
def Vec3.add (a b : Vec3) : Vec3 :=
  ⟨a.x + b.x, a.y + b.y, a.z + b.z⟩

/-- Scalar multiplication (THREE.Vector3.multiplyScalar). -/
def Vec3.smul (c : ℚ) (v : Vec3) : Vec3 :=
  ⟨c * v.x, c * v.y, c * v.z⟩

/-- One entry of the list returned by `raycaster.intersectObject`: the
intersection point, the surface normal there, and the ray distance by
which three.js sorts the list. -/
structure Intersection where
  point : Vec3
  normal : Vec3
  dist : ℚ
deriving DecidableEq, Repr

/-- The state an anchor-drag handler reads and writes: the pivot mesh's
position (`none` while the ref is unmounted), whether `modelRef.current`
is still a live object, and the stored anchor coordinates
(`positionRef.current`, a 3-number array in the source). -/
structure AnnDragState where
  pivotPos : Option Vec3
  modelValid : Bool
  anchor : Vec3
deriving DecidableEq, Repr

/-- Anchor-drag handler of `src/unnamed/part_001` lines 97–116.  Returns
early if the pivot ref or the model ref is gone; otherwise, when the
raycast (whose result list is the `intersects` parameter) hits, it sets
both the pivot position and the stored anchor to
`point + 0.05 · normal`; on a miss it changes nothing. -/
def handlePivotDrag (intersects : List Intersection) (s : AnnDragState) :
    AnnDragState :=
  match s.pivotPos with
  | none => s
  | some _ =>
    if s.modelValid then
      match intersects with
      | [] => s
      | i :: _ =>
        let newPosition := i.point.add (Vec3.smul (0.05 : ℚ) i.normal)
        { s with pivotPos := some newPosition,
                 anchor := newPosition }
    else s

/-- Anchor-drag handler of `src/portfolio/src/App.tsx` lines 82–95.  Same
guards; on a hit the pivot mesh is moved to `point + 0.01 · normal`, but
`positionRef.current` is assigned `[point.x, point.y, point.z]` — the raw
intersection point, without the normal offset. -/
def handleDrag (intersects : List Intersection) (s : AnnDragState) :
    AnnDragState :=
  match s.pivotPos with
  | none => s
  | some _ =>
    if s.modelValid then
      match intersects with
      | [] => s
      | i :: _ =>
        { s with pivotPos := some (i.point.add (Vec3.smul (0.01 : ℚ) i.normal)),
                 anchor := i.point }
    else s

/-- State read and written by the `useFrame` callback of the Annotation
component: the world positions of the pivot mesh and of the content
panel (`none` while the corresponding ref is unmounted), whether
`lineRef.current` is mounted, and the connector line's two endpoints
(the 6-float position buffer of the line geometry). -/
structure FrameState where
  pivotWorld : Option Vec3
  contentWorld : Option Vec3
  lineMounted : Bool
  linePositions : Vec3 × Vec3
deriving DecidableEq, Repr

/-- Per-frame connector update, `src/unnamed/part_001` lines 140–160 (and
identically `src/portfolio/src/App.tsx` lines 97–117): when the pivot
ref, the content ref and the line ref are all mounted, write the two
world positions into the line's position buffer; otherwise do nothing
this frame. -/
def annotFrame (s : FrameState) : FrameState :=
  match s.pivotWorld, s.contentWorld, s.lineMounted with
  | some p, some c, true => { s with linePositions := (p, c) }
  | _, _, _ => s

/-- Opaque identity of a bound model group (`RefObject<THREE.Group>`). -/
abbrev ModelId := Nat

/-- One element of `annotationsRef.current` in part_001's App: the stored
anchor coordinates, the content string (`none` embeds JavaScript null),
the bound model reference and the text/image flag. -/
structure AnnotRecord where
  position : Vec3
  content : Option String
  modelRef : ModelId
  isImage : Bool
deriving DecidableEq, Repr

/-- App-level session state of part_001: the record store, the selection
panel's visibility, and the single-slot pending pick (point and model
ref captured at double-click time). -/
structure AppState where
  annots : List AnnotRecord
  showSelectionPanel : Bool
  pendingPoint : Option Vec3
  pendingModelRef : Option ModelId
deriving DecidableEq, Repr

/-- Initial App state: empty store, no panel, no pending pick. -/
def initState : AppState :=
  { annots := [], showSelectionPanel := false,
    pendingPoint := none, pendingModelRef := none }

/-- Double-click handler, part_001 lines 315–323: store the picked point
and model ref in the pending slot and show the selection panel. -/
def handleModelClick (point : Vec3) (modelRef : ModelId) (s : AppState) :
    AppState :=
  { s with pendingPoint := some point,
           pendingModelRef := some modelRef,
           showSelectionPanel := true }

/-- The "Add Text" handler, part_001 lines 325–339: bail out when either
pending field is null; otherwise push a record carrying the raw pending
point, the placeholder string "Annotation" and `isImage = false`, then
hide the panel and clear both pending fields. -/
def handleTextSelection (s : AppState) : AppState :=
  match s.pendingPoint, s.pendingModelRef with
  | some p, some r =>
    { annots := s.annots ++
        [{ position := p, content := some "Annotation",
           modelRef := r, isImage := false }],
      showSelectionPanel := false,
      pendingPoint := none,
      pendingModelRef := none }
  | _, _ => s

/-- Stand-in for the external `URL.createObjectURL` collaborator: an
injective tagging of the chosen file. -/
def createObjectURL (file : String) : String :=
  "blob:" ++ file

/-- The "Add Image" file-input handler, part_001 lines 341–358.  `file`
is `event.target.files?.[0]` (`none` when the file dialog was
cancelled).  Only when a file was chosen and both pending fields are
non-null does it push an image record and clear the pending state; in
every other case nothing at all happens. -/
def handleImageUpload (file : Option String) (s : AppState) : AppState :=
  match file with
  | none => s
  | some f =>
    match s.pendingModelRef, s.pendingPoint with
    | some r, some p =>
      { annots := s.annots ++
          [{ position := p, content := some (createObjectURL f),
             modelRef := r, isImage := true }],
        showSelectionPanel := false,
        pendingPoint := none,
        pendingModelRef := none }
    | _, _ => s

/-- The Cancel button's onClick, part_001 line 459: exactly
`setShowSelectionPanel(false)` — it hides the panel and touches nothing
else. -/
def cancelSelection (s : AppState) : AppState :=
  { s with showSelectionPanel := false }

/-- Deletion handler, part_001 lines 360–363:
`annotationsRef.current.splice(index, 1)`. -/
def handleDelete (index : Nat) (s : AppState) : AppState :=
  { s with annots := s.annots.eraseIdx index }

/-- JavaScript `a || b` on an optional string: `undefined` and the empty
string are both falsy. -/
def jsOrStr (v d : Option String) : Option String :=
  match v with
  | none => d
  | some str => if str = "" then d else some str

/-- Content/type mutation handler, part_001 lines 365–374.  Out of
bounds, the JavaScript code throws (property access on undefined), which
the embedding renders as `none`.  In bounds it sets `isImage` and
assigns `newContent || (isImage ? null : "Annotation")` to the record's
content in place. -/
def handleTypeChange (index : Nat) (toImage : Bool)
    (newContent : Option String) (s : AppState) : Option AppState :=
  match s.annots[index]? with
  | none => none
  | some rec =>
    let updated : AnnotRecord :=
      { rec with isImage := toImage,
                 content := jsOrStr newContent
                   (if toImage then none else some "Annotation") }
    some { s with annots := s.annots.set index updated }

/-- C2: a drag-continuation whose raycast returns no intersection, or
whose bound model ref is no longer a live object, leaves the drag state —
in particular the stored anchor — exactly unchanged, in both the
part_001 handler and the App.tsx handler; no field is mutated and no
error is produced (the handlers are total). -/
theorem drag_miss_is_noop (l : List Intersection) (s : AnnDragState)
    (h : l = [] ∨ s.modelValid = false) :
    handlePivotDrag l s = s ∧ handleDrag l s = s := by
  obtain ⟨pp, mv, an⟩ := s
  cases pp <;> cases mv <;> rcases h with rfl | h <;>
    simp_all [handlePivotDrag, handleDrag]

/-- Witness for `drag_miss_is_noop` at a concrete mounted state and an
empty intersection list. -/
theorem drag_miss_is_noop_witness :
    handlePivotDrag [] ⟨some ⟨0, 0, 0⟩, true, ⟨1, 1, 1⟩⟩ =
      ⟨some ⟨0, 0, 0⟩, true, ⟨1, 1, 1⟩⟩ ∧
    handleDrag [] ⟨some ⟨0, 0, 0⟩, true, ⟨1, 1, 1⟩⟩ =
      ⟨some ⟨0, 0, 0⟩, true, ⟨1, 1, 1⟩⟩ :=
  drag_miss_is_noop [] ⟨some ⟨0, 0, 0⟩, true, ⟨1, 1, 1⟩⟩ (Or.inl rfl)

/-- C3: on a frame where the pivot ref, the content-panel ref and the
line ref are all mounted, the connector's two endpoints are set to
exactly the pivot's and the panel's current world positions; if any of
the three is not mounted, the whole frame state — endpoints included —
is left untouched, so no partial coordinates are ever written. -/
theorem frame_connector_endpoints (s : FrameState) :
    (∀ p c, s.pivotWorld = some p → s.contentWorld = some c →
      s.lineMounted = true →
      annotFrame s = { s with linePositions := (p, c) }) ∧
    ((s.pivotWorld = none ∨ s.contentWorld = none ∨ s.lineMounted = false) →
      annotFrame s = s) := by
  obtain ⟨pw, cw, lm, lp⟩ := s
  constructor
  · intro p c hp hc hl
    cases pw <;> cases cw <;> cases lm <;> simp_all [annotFrame]
  · intro h
    cases pw <;> cases cw <;> cases lm <;>
      rcases h with h | h | h <;> simp_all [annotFrame]

/-- Witness for `frame_connector_endpoints`: a fully mounted frame state
gets both endpoints overwritten with the two world positions. -/
theorem frame_connector_endpoints_witness :
    annotFrame ⟨some ⟨1, 2, 3⟩, some ⟨4, 5, 6⟩, true, (⟨0, 0, 0⟩, ⟨0, 0, 0⟩)⟩ =
      ⟨some ⟨1, 2, 3⟩, some ⟨4, 5, 6⟩, true, (⟨1, 2, 3⟩, ⟨4, 5, 6⟩)⟩ :=
  (frame_connector_endpoints
      ⟨some ⟨1, 2, 3⟩, some ⟨4, 5, 6⟩, true, (⟨0, 0, 0⟩, ⟨0, 0, 0⟩)⟩).1
    ⟨1, 2, 3⟩ ⟨4, 5, 6⟩ rfl rfl rfl

/-- C5: a double-activation pick while a pending pick is already held
overwrites both pending fields with the new pick — the pending slot is a
single `Option`-valued field, so at most one pending pick can ever
exist — shows the panel, appends nothing to the store, and raises no
error (the handler is total). -/
theorem model_click_overwrites_pending (p q : Vec3) (r : ModelId)
    (s : AppState) (hheld : s.pendingPoint = some q) :
    (handleModelClick p r s).pendingPoint = some p ∧
    (handleModelClick p r s).pendingModelRef = some r ∧
    (handleModelClick p r s).annots = s.annots ∧
    (handleModelClick p r s).showSelectionPanel = true := by
  exact ⟨rfl, rfl, rfl, rfl⟩

/-- Witness for `model_click_overwrites_pending`: a new pick at (7,8,9)
over a held pending pick at (1,2,3) ends with (7,8,9) pending. -/
theorem model_click_overwrites_pending_witness :
    (handleModelClick ⟨7, 8, 9⟩ 2 ⟨[], true, some ⟨1, 2, 3⟩, some 0⟩).pendingPoint =
      some ⟨7, 8, 9⟩ ∧
    (handleModelClick ⟨7, 8, 9⟩ 2 ⟨[], true, some ⟨1, 2, 3⟩, some 0⟩).pendingModelRef =
      some 2 ∧
    (handleModelClick ⟨7, 8, 9⟩ 2 ⟨[], true, some ⟨1, 2, 3⟩, some 0⟩).annots = [] ∧
    (handleModelClick ⟨7, 8, 9⟩ 2 ⟨[], true, some ⟨1, 2, 3⟩, some 0⟩).showSelectionPanel =
      true :=
  model_click_overwrites_pending ⟨7, 8, 9⟩ ⟨1, 2, 3⟩ 2
    ⟨[], true, some ⟨1, 2, 3⟩, some 0⟩ rfl

/-- C10: when either pending field is null, choosing Text or completing
an image-file selection is a strict no-op on the whole App state: no
record is appended and every existing record, the panel flag and the
pending fields are left exactly as they were. -/
theorem finalize_noop_without_pending (s : AppState) (f : Option String)
    (h : s.pendingPoint = none ∨ s.pendingModelRef = none) :
    handleTextSelection s = s ∧ handleImageUpload f s = s := by
  obtain ⟨an, sp, pp, pr⟩ := s
  cases pp <;> cases pr <;> cases f <;> rcases h with h | h <;>
    simp_all [handleTextSelection, handleImageUpload]

/-- Witness for `finalize_noop_without_pending`: with a null pending
point and a chosen file, both finalizers leave the state unchanged. -/
theorem finalize_noop_without_pending_witness :
    handleTextSelection ⟨[], true, none, some 0⟩ = ⟨[], true, none, some 0⟩ ∧
    handleImageUpload (some "photo.png") ⟨[], true, none, some 0⟩ =
      ⟨[], true, none, some 0⟩ :=
  finalize_noop_without_pending ⟨[], true, none, some 0⟩ (some "photo.png")
    (Or.inl rfl)

/-- C1 counterexample: in the App.tsx drag handler, with the pivot
mounted, the model live, and one intersection at point (1,2,3) with unit
normal (0,0,1), the stored anchor becomes the raw point (1,2,3) while
the pivot mesh is placed at (1,2,3) + 0.01·(0,0,1); the two therefore
differ, so it is false that both equal point + ε·normal for any ε. -/
theorem anchor_drag_offset_counterexample :
    (handleDrag [⟨⟨1, 2, 3⟩, ⟨0, 0, 1⟩, 1⟩]
      ⟨some ⟨0, 0, 0⟩, true, ⟨0, 0, 0⟩⟩).anchor = ⟨1, 2, 3⟩ ∧
    (handleDrag [⟨⟨1, 2, 3⟩, ⟨0, 0, 1⟩, 1⟩]
      ⟨some ⟨0, 0, 0⟩, true, ⟨0, 0, 0⟩⟩).pivotPos =
      some (Vec3.add ⟨1, 2, 3⟩ (Vec3.smul (0.01 : ℚ) ⟨0, 0, 1⟩)) ∧
    some ((handleDrag [⟨⟨1, 2, 3⟩, ⟨0, 0, 1⟩, 1⟩]
      ⟨some ⟨0, 0, 0⟩, true, ⟨0, 0, 0⟩⟩).anchor) ≠
      (handleDrag [⟨⟨1, 2, 3⟩, ⟨0, 0, 1⟩, 1⟩]
        ⟨some ⟨0, 0, 0⟩, true, ⟨0, 0, 0⟩⟩).pivotPos := by
  refine ⟨rfl, rfl, ?_⟩
  simp [handleDrag, Vec3.add, Vec3.smul]
  norm_num

/-- C1 amended: on a drag-continuation whose ray hits the bound mesh,
the part_001 handler sets both the pivot mesh position and the stored
anchor to the head intersection's `point + 0.05·normal`, where the head
is the nearest hit of the (distance-sorted) intersection list; the
App.tsx handler instead sets the pivot mesh to `point + 0.01·normal`
while storing the raw intersection point as the anchor. -/
theorem anchor_drag_hit_update (i : Intersection) (rest : List Intersection)
    (s : AnnDragState) (hp : s.pivotPos.isSome = true)
    (hm : s.modelValid = true)
    (hsort : ∀ j ∈ rest, i.dist ≤ j.dist) :
    ((handlePivotDrag (i :: rest) s).anchor =
        i.point.add (Vec3.smul (0.05 : ℚ) i.normal) ∧
      (handlePivotDrag (i :: rest) s).pivotPos =
        some (i.point.add (Vec3.smul (0.05 : ℚ) i.normal))) ∧
    ((handleDrag (i :: rest) s).anchor = i.point ∧
      (handleDrag (i :: rest) s).pivotPos =
        some (i.point.add (Vec3.smul (0.01 : ℚ) i.normal))) ∧
    (∀ j ∈ i :: rest, i.dist ≤ j.dist) := by
  obtain ⟨pp, mv, an⟩ := s
  cases pp <;> simp_all [handlePivotDrag, handleDrag]

/-- Witness for `anchor_drag_hit_update` at a concrete hit: a single
intersection at (1,2,3), normal (0,0,1), distance 1, starting from a
mounted pivot at the origin. -/
theorem anchor_drag_hit_update_witness :
    ((handlePivotDrag [⟨⟨1, 2, 3⟩, ⟨0, 0, 1⟩, 1⟩]
        ⟨some ⟨0, 0, 0⟩, true, ⟨0, 0, 0⟩⟩).anchor =
        Vec3.add ⟨1, 2, 3⟩ (Vec3.smul (0.05 : ℚ) ⟨0, 0, 1⟩) ∧
      (handlePivotDrag [⟨⟨1, 2, 3⟩, ⟨0, 0, 1⟩, 1⟩]
        ⟨some ⟨0, 0, 0⟩, true, ⟨0, 0, 0⟩⟩).pivotPos =
        some (Vec3.add ⟨1, 2, 3⟩ (Vec3.smul (0.05 : ℚ) ⟨0, 0, 1⟩))) ∧
    ((handleDrag [⟨⟨1, 2, 3⟩, ⟨0, 0, 1⟩, 1⟩]
        ⟨some ⟨0, 0, 0⟩, true, ⟨0, 0, 0⟩⟩).anchor = ⟨1, 2, 3⟩ ∧
      (handleDrag [⟨⟨1, 2, 3⟩, ⟨0, 0, 1⟩, 1⟩]
        ⟨some ⟨0, 0, 0⟩, true, ⟨0, 0, 0⟩⟩).pivotPos =
        some (Vec3.add ⟨1, 2, 3⟩ (Vec3.smul (0.01 : ℚ) ⟨0, 0, 1⟩))) ∧
    (∀ j ∈ [(⟨⟨1, 2, 3⟩, ⟨0, 0, 1⟩, 1⟩ : Intersection)],
      (1 : ℚ) ≤ j.dist) :=
  anchor_drag_hit_update ⟨⟨1, 2, 3⟩, ⟨0, 0, 1⟩, 1⟩ []
    ⟨some ⟨0, 0, 0⟩, true, ⟨0, 0, 0⟩⟩ rfl rfl (by simp)

/-- C4 counterexample: double-activating at (1,2,3) and choosing Text
stores a record whose anchor is exactly the raw point (1,2,3) — no
epsilon offset along any normal is applied at creation time, as the
point differs from (1,2,3) + ε·(0,0,1) for the code's two epsilons 0.05
and 0.01 at the unit normal (0,0,1). -/
theorem text_finalize_counterexample :
    (handleTextSelection (handleModelClick ⟨1, 2, 3⟩ 0 initState)).annots =
      [{ position := ⟨1, 2, 3⟩, content := some "Annotation",
         modelRef := 0, isImage := false }] ∧
    (⟨1, 2, 3⟩ : Vec3) ≠ Vec3.add ⟨1, 2, 3⟩ (Vec3.smul (0.05 : ℚ) ⟨0, 0, 1⟩) ∧
    (⟨1, 2, 3⟩ : Vec3) ≠ Vec3.add ⟨1, 2, 3⟩ (Vec3.smul (0.01 : ℚ) ⟨0, 0, 1⟩) := by
  refine ⟨rfl, ?_, ?_⟩ <;> · simp [Vec3.add, Vec3.smul]; norm_num

/-- C4 amended: from a state with an empty store, a double-activation
pick at point p followed by choosing Text leaves the Annotation Store
with exactly one record, whose anchor is exactly the picked point p
(stored unmodified, with no normal offset), whose kind is Text
(`isImage = false`) and whose content is the placeholder "Annotation";
the pending slot is cleared. -/
theorem text_finalize_stores_raw_point (p : Vec3) (r : ModelId)
    (s : AppState) (hempty : s.annots = []) :
    (handleTextSelection (handleModelClick p r s)).annots =
      [{ position := p, content := some "Annotation",
         modelRef := r, isImage := false }] ∧
    (handleTextSelection (handleModelClick p r s)).pendingPoint = none ∧
    (handleTextSelection (handleModelClick p r s)).pendingModelRef = none := by
  simp [handleModelClick, handleTextSelection, hempty]

/-- Witness for `text_finalize_stores_raw_point` at the pick (1,2,3)
from the initial state. -/
theorem text_finalize_stores_raw_point_witness :
    (handleTextSelection (handleModelClick ⟨1, 2, 3⟩ 0 initState)).annots =
      [{ position := ⟨1, 2, 3⟩, content := some "Annotation",
         modelRef := 0, isImage := false }] ∧
    (handleTextSelection (handleModelClick ⟨1, 2, 3⟩ 0 initState)).pendingPoint =
      none ∧
    (handleTextSelection (handleModelClick ⟨1, 2, 3⟩ 0 initState)).pendingModelRef =
      none :=
  text_finalize_stores_raw_point ⟨1, 2, 3⟩ 0 initState rfl

/-- C6 counterexample: with a pending pick at (1,2,3) held and the panel
open, pressing Cancel leaves `pendingPoint` still equal to some (1,2,3)
— the pending-pick state is not cleared, contrary to the claim —
and cancelling the image-file dialog leaves the whole state (panel
included) untouched. -/
theorem cancel_counterexample :
    (cancelSelection ⟨[], true, some ⟨1, 2, 3⟩, some 0⟩).pendingPoint =
      some ⟨1, 2, 3⟩ ∧
    (cancelSelection ⟨[], true, some ⟨1, 2, 3⟩, some 0⟩).pendingPoint ≠ none ∧
    handleImageUpload none ⟨[], true, some ⟨1, 2, 3⟩, some 0⟩ =
      ⟨[], true, some ⟨1, 2, 3⟩, some 0⟩ := by
  exact ⟨rfl, by simp [cancelSelection], rfl⟩

/-- C6 amended: cancelling the selection panel hides the panel and
appends no record, but leaves the pending point and pending target
reference exactly as they were (they are only overwritten by the next
pick or finalization); cancelling the image-file dialog mid-pending-pick
changes nothing at all — no record is appended, the pending pick is
kept, and the panel stays open. -/
theorem cancel_keeps_pending (s : AppState) :
    (cancelSelection s).annots = s.annots ∧
    (cancelSelection s).showSelectionPanel = false ∧
    (cancelSelection s).pendingPoint = s.pendingPoint ∧
    (cancelSelection s).pendingModelRef = s.pendingModelRef ∧
    handleImageUpload none s = s := by
  exact ⟨rfl, rfl, rfl, rfl, rfl⟩

/-- C7: deletion is JavaScript `splice(index, 1)`: on a store holding
records A then B, removing index 0 leaves exactly the one record B at
index 0; in general, removing index i keeps the first i records, drops
the record at i, shifts every higher-indexed record down by one in their
original relative order, and shrinks the length by exactly one. -/
theorem remove_at_reindexes (A B : AnnotRecord) (s t : AppState) (i : Nat)
    (hs : s.annots = [A, B]) (hi : i < t.annots.length) :
    (handleDelete 0 s).annots = [B] ∧
    (handleDelete i t).annots = t.annots.take i ++ t.annots.drop (i + 1) ∧
    (handleDelete i t).annots.length + 1 = t.annots.length := by
  refine ⟨?_, ?_, ?_⟩
  · simp [handleDelete, hs]
  · simp [handleDelete, List.eraseIdx_eq_take_drop_succ]
  · simp only [handleDelete, List.length_eraseIdx, hi, if_true]
    omega

/-- Example records and a two-record store used by the deletion
witness. -/
def recA : AnnotRecord :=
  { position := ⟨1, 1, 1⟩, content := some "A", modelRef := 0, isImage := false }

/-- Second example record. -/
def recB : AnnotRecord :=
  { position := ⟨2, 2, 2⟩, content := some "B", modelRef := 0, isImage := true }

/-- Two-record App state holding `recA` then `recB`. -/
def stateAB : AppState :=
  { annots := [recA, recB], showSelectionPanel := false,
    pendingPoint := none, pendingModelRef := none }

/-- Witness for `remove_at_reindexes`: removing index 0 from the
two-record store [recA, recB] keeps exactly [recB]; removing index 1
keeps the take/drop split and shrinks the length by one. -/
theorem remove_at_reindexes_witness :
    (handleDelete 0 stateAB).annots = [recB] ∧
    (handleDelete 1 stateAB).annots =
      stateAB.annots.take 1 ++ stateAB.annots.drop 2 ∧
    (handleDelete 1 stateAB).annots.length + 1 = stateAB.annots.length := by
  have h := remove_at_reindexes recA recB stateAB stateAB 1 rfl
    (by simp [stateAB])
  exact ⟨h.1, h.2.1, h.2.2⟩

/-- Record transformation applied by `handleTypeChange` when switching a
record to Text without explicit content: the Text flag plus the default
placeholder. -/
def textDefault (rec : AnnotRecord) : AnnotRecord :=
  { rec with isImage := false, content := some "Annotation" }

/-- Record transformation applied by `handleTypeChange` when switching a
record to Image without explicit content: the Image flag and null
content. -/
def imageCleared (rec : AnnotRecord) : AnnotRecord :=
  { rec with isImage := true, content := none }

/-- C8: switching a record from Image to Text with no explicit new
content (`handleTypeChange index false undefined`) succeeds, mutates
exactly the record at that index in place — setting `isImage := false`
and `content` to the placeholder "Annotation", never null — and leaves
every other index of the store untouched. -/
theorem type_change_to_text_defaults (i : Nat) (s : AppState)
    (rec : AnnotRecord) (h : s.annots[i]? = some rec)
    (him : rec.isImage = true) :
    handleTypeChange i false none s =
      some { s with annots := s.annots.set i (textDefault rec) } ∧
    ∀ s', handleTypeChange i false none s = some s' →
      s'.annots[i]? = some (textDefault rec) ∧
      ∀ j, j ≠ i → s'.annots[j]? = s.annots[j]? := by
  have hlen : i < s.annots.length := by
    rcases Nat.lt_or_ge i s.annots.length with h' | h'
    · exact h'
    · rw [List.getElem?_eq_none h'] at h
      cases h
  have heq : handleTypeChange i false none s =
      some { s with annots := s.annots.set i (textDefault rec) } := by
    simp [handleTypeChange, h, jsOrStr, textDefault]
  refine ⟨heq, ?_⟩
  intro s' hs'
  rw [heq, Option.some_inj] at hs'
  subst hs'
  constructor
  · exact List.getElem?_set_eq_of_lt (textDefault rec) hlen
  · intro j hj
    exact List.getElem?_set_ne (Ne.symm hj)

/-- Example image record used by the type-change witnesses. -/
def recImg : AnnotRecord :=
  { position := ⟨0, 0, 0⟩, content := some "img://foo",
    modelRef := 0, isImage := true }

/-- One-record App state holding `recImg`. -/
def stateImg : AppState :=
  { annots := [recImg], showSelectionPanel := false,
    pendingPoint := none, pendingModelRef := none }

/-- Witness for `type_change_to_text_defaults`: a one-record store
holding an image record, switched to Text with no content. -/
theorem type_change_to_text_defaults_witness :
    handleTypeChange 0 false none stateImg =
      some { stateImg with annots := stateImg.annots.set 0 (textDefault recImg) } :=
  (type_change_to_text_defaults 0 stateImg recImg rfl rfl).1

/-- C9: with no explicit new content (undefined) or with the empty
string — both falsy in the JavaScript `newContent || ...` check — the
type-change handler sets the record's content to null when switching to
Image, and resets it to the placeholder "Annotation" when switching to
Text, so content can really become null and an emptied text silently
reverts to the placeholder. -/
theorem type_change_falsy_content (i : Nat) (s : AppState)
    (rec : AnnotRecord) (nc : Option String) (h : s.annots[i]? = some rec)
    (hnc : nc = none ∨ nc = some "") :
    handleTypeChange i true nc s =
      some { s with annots := s.annots.set i (imageCleared rec) } ∧
    handleTypeChange i false nc s =
      some { s with annots := s.annots.set i (textDefault rec) } := by
  rcases hnc with rfl | rfl <;>
    simp [handleTypeChange, h, jsOrStr, imageCleared, textDefault]

/-- Example text record used by the falsy-content witness. -/
def recTxt : AnnotRecord :=
  { position := ⟨1, 2, 3⟩, content := some "hello",
    modelRef := 0, isImage := false }

/-- One-record App state holding `recTxt`. -/
def stateTxt : AppState :=
  { annots := [recTxt], showSelectionPanel := false,
    pendingPoint := none, pendingModelRef := none }

/-- Witness for `type_change_falsy_content`: the empty-string case on a
one-record store holding a text record. -/
theorem type_change_falsy_content_witness :
    handleTypeChange 0 true (some "") stateTxt =
      some { stateTxt with annots := stateTxt.annots.set 0 (imageCleared recTxt) } ∧
    handleTypeChange 0 false (some "") stateTxt =
      some { stateTxt with annots := stateTxt.annots.set 0 (textDefault recTxt) } :=
  type_change_falsy_content 0 stateTxt recTxt (some "") rfl (Or.inr rfl)
